import Mathlib

/-!
Verification development for the libgit2 SSH smart-subtransport
(src/transports/ssh.c). The C functions are shallowly embedded as Lean
functions over lists of characters; external collaborators (network
primitives, the libssh2 session and channel provider, the caller-supplied
credential callback) are supplied through explicit environment records,
and resource usage is tracked by counting the handles a call has created
and not yet released.
-/

namespace SshVerify

/-- The single-quote character, written by code point so that it never
appears inside a string literal of this file. -/
def squote : Char := Char.ofNat 39

/-- Character strings, modelling C strings up to (not including) the NUL. -/
abbrev Str := List Char

/-- Index of the first occurrence of a character, as computed by strchr. -/
def strchrIdx (s : Str) (c : Char) : Option Nat :=
  match s with
  | [] => none
  | a :: rest => if a = c then some 0 else (strchrIdx rest c).map (· + 1)

/-- Suffix of the string starting at the first occurrence of the character:
this is the string a successful strchr result points at, the sought
character included. -/
def strchrSuf (s : Str) (c : Char) : Option Str :=
  match s with
  | [] => none
  | a :: rest => if a = c then some (a :: rest) else strchrSuf rest c

/-- The ssh scheme marker (ssh.c:17). -/
def prefix_ssh : Str := "ssh://".toList

/-- The default user name (ssh.c:18). -/
def default_user : Str := "git".toList

/-- Service command for upload-pack (ssh.c:19). -/
def cmd_uploadpack : Str := "git-upload-pack".toList

/-- Service command for receive-pack (ssh.c:20). -/
def cmd_receivepack : Str := "git-receive-pack".toList

/-- Embeds gen_proto (ssh.c:44-69): build the remote command string. For a
URL carrying the ssh scheme the repo starts at the first slash after the
scheme; otherwise the repo is the strchr result for the colon, which points
at the colon itself, so the colon is part of the repo. Returns none when the
sought character is absent. The NUL terminator appended to the request
buffer (ssh.c:63) is a buffer artifact and is modelled at the send site. -/
def gen_proto (cmd url : Str) : Option Str :=
  let repo :=
    if prefix_ssh.isPrefixOf url then
      strchrSuf (url.drop prefix_ssh.length) '/'
    else
      strchrSuf url ':'
  match repo with
  | none => none
  | some r => some (cmd ++ [' ', squote] ++ r ++ [squote])

/-- Concrete URLs used by the spec properties P3 and P4. -/
def urlScheme : Str := "ssh://git@example.com/libgit2/libgit2".toList

/-- Shorthand form of the same remote, spec property P4. -/
def urlShorthand : Str := "git@example.com:libgit2/libgit2".toList

/-- Credential variants (git2/cred union): the two types this transport
handles (ssh.c:236 and ssh.c:245) plus a tag for any other type, which the
authentication dispatch rejects in its default branch (ssh.c:256). -/
inductive GitCred where
  | userpassPlaintext (username password : Str)
  | keyfilePassphrase (publickey privatekey passphrase : Str)
  | otherType
deriving DecidableEq

/-- Bit for the plaintext credential type in the allowed-types mask. -/
def GIT_CREDTYPE_USERPASS_PLAINTEXT : Nat := 1

/-- Bit for the keyfile-passphrase credential type in the allowed-types mask. -/
def GIT_CREDTYPE_SSH_KEYFILE_PASSPHRASE : Nat := 2

/-- Error kinds, following the taxonomy of spec section 7; each constructor
corresponds to the failure site in ssh.c that reports it. -/
inductive GitError where
  | malformedURL
  | connectionFailure
  | credentialFailure
  | sessionFailure
  | authenticationFailure
  | channelFailure
  | protocolSequence
deriving DecidableEq

/-- The per-action stream object (ssh.c:22-30). The session and channel
flags record whether the corresponding handle has been stored into the
stream (ssh.c:341-342); during setup those handles live in locals and are
not yet owned by the stream. -/
structure SshStream where
  socketOpen : Bool
  hasSession : Bool
  hasChannel : Bool
  cmd : Str
  url : Str
  sent_command : Bool
deriving DecidableEq

/-- The connection-scoped subtransport state (ssh.c:32-37): the stored
current stream and the resolved credential. -/
structure SshSubtransport where
  current_stream : Option SshStream
  cred : Option GitCred
deriving DecidableEq

/-- What the caller-visible stream out parameter holds after a call: the
null pointer, a live stream, or a pointer to a stream that has been freed. -/
inductive OutPtr where
  | null
  | live (s : SshStream)
  | dangling
deriving DecidableEq

/-- Counts of the resources a setup call has created and not yet released. -/
structure World where
  socketsOpen : Nat
  sessionsLive : Nat
  channelsLive : Nat
  streamsLive : Nat
deriving DecidableEq

/-- Observable interactions recorded during a setup call: the host and port
handed to the connect primitive, the credential-callback invocation (count,
user-name hint, advertised type mask), the credential the call resolved,
and the number of calls made by each retry loop. -/
structure SetupTrace where
  connectHost : Option Str
  connectPort : Option Str
  cbCalls : Nat
  cbHint : Option (Option Str)
  cbTypes : Option Nat
  resolvedCred : Option GitCred
  startupCalls : Nat
  authCalls : Nat
  channelOpenCalls : Nat
deriving DecidableEq

/-- The all-zero trace. -/
def SetupTrace.empty : SetupTrace :=
  ⟨none, none, 0, none, none, none, 0, 0, 0⟩

/-- Outcome of one channel-open attempt by the provider: a channel, a null
result with a transient would-block signal, or a null result with a hard
error. The C code observes only null versus non-null (ssh.c:335). -/
inductive ChanRes where
  | opened
  | transientFail
  | hardFail
deriving DecidableEq

/-- LIBSSH2_ERROR_EAGAIN, the transient would-block signal. -/
def LIBSSH2_ERROR_EAGAIN : Int := -37

/-- LIBSSH2_ERROR_TIMEOUT, the transient timeout signal. -/
def LIBSSH2_ERROR_TIMEOUT : Int := -9

/-- The transient-retry predicate used by every retry loop in ssh.c
(ssh.c:259, ssh.c:317, ssh.c:333). -/
def isTransientRc (rc : Int) : Bool :=
  rc = LIBSSH2_ERROR_EAGAIN || rc = LIBSSH2_ERROR_TIMEOUT

/-- Behaviour of the external collaborators during one setup call: whether
the TCP connect succeeds, the credential callback as a function of the
user-name hint (none models a negative return), whether session allocation
succeeds, the session-startup and authentication answer sequences (a finite
transient prefix, then the answer the provider settles on), and the answer
to each channel-open attempt. -/
structure SetupEnv where
  connect_ok : Bool
  cred_cb : Option Str → Option GitCred
  session_init_ok : Bool
  startup_pre : List Int
  startup_final : Int
  auth_pre : List Int
  auth_final : Int
  channel_answers : Nat → ChanRes

/-- Result and call count of a do-while loop that repeats while the answer
is EAGAIN or TIMEOUT (ssh.c:315-317, ssh.c:234-259): the answers in pre are
consumed first, and final is the answer the provider settles on once pre is
exhausted. An environment whose settled answer were itself transient would
describe a provider that never lets the C loop exit; such environments are
outside this model. -/
def firstNonTransient : List Int → Int → Int × Nat
  | [], final => (final, 1)
  | r :: rs, final =>
    if isTransientRc r then
      let p := firstNonTransient rs final
      (p.1, p.2 + 1)
    else (r, 1)

/-- Embeds the channel-open do-while (ssh.c:331-333). The guard tests rc,
the variable holding the settled session-startup result, and the loop body
never updates rc: on the path that reaches this loop rc is 0, the guard is
false, and the body runs exactly once, whatever the channel answer. A true
guard would repeat forever; that unreachable case is marked by a zero call
count. -/
def channelOpenLoop (answers : Nat → ChanRes) (staleRc : Int) : ChanRes × Nat :=
  if isTransientRc staleRc then (ChanRes.hardFail, 0)
  else (answers 0, 1)

/-- Embeds _git_ssh_authenticate_session (ssh.c:227-262): dispatch on the
credential type inside a do-while that retries while the result is EAGAIN
or TIMEOUT. An unhandled credential type yields -1 from the default branch,
which is not transient, so that loop runs once. Returns the settled rc and
the iteration count. The user argument is consumed only by the keyfile
call in C and does not influence the modelled outcome. -/
def _git_ssh_authenticate_session (cred : GitCred) (_user : Str)
    (env : SetupEnv) : Int × Nat :=
  match cred with
  | GitCred.otherType => (-1, 1)
  | _ => firstNonTransient env.auth_pre env.auth_final

/-- Embeds ssh_stream_free (ssh.c:138-165): unconditionally clear the
owning subtransport current-stream field, then release the channel, the
session and the socket when the stream holds them, and free the stream
itself. Handles not stored in the stream are untouched, so a handle still
held in a local of the setup routine is not released here. -/
def ssh_stream_free (t : SshSubtransport) (s : SshStream) (w : World) :
    SshSubtransport × World :=
  ({ t with current_stream := none },
   { w with
      channelsLive := w.channelsLive - (if s.hasChannel then 1 else 0),
      sessionsLive := w.sessionsLive - (if s.hasSession then 1 else 0),
      socketsOpen := w.socketsOpen - (if s.socketOpen then 1 else 0),
      streamsLive := w.streamsLive - 1 })

/-- Embeds git_ssh_extract_url_parts (ssh.c:198-225): without a colon the
URL is malformed; otherwise, when an at-sign exists the username is the text
before the first at-sign and the host runs from just after that at-sign up
to the first colon, and without an at-sign the username defaults to git and
the host is the text before the colon. In C the host length is the pointer
difference colon - start, which underflows when the first at-sign lies
beyond the first colon; the model is faithful on inputs where any at-sign
precedes the first colon, the shape of the accepted shorthand grammar.
Returns (host, username). -/
def git_ssh_extract_url_parts (url : Str) : Option (Str × Str) :=
  match strchrIdx url ':' with
  | none => none
  | some ci =>
    match strchrIdx url '@' with
    | some ai => some ((url.drop (ai + 1)).take (ci - (ai + 1)), url.take ai)
    | none => some (url.take ci, default_user)

/-- Parsed URL components, spec section 3. -/
structure UrlParts where
  host : Str
  port : Str
  user : Option Str
  pass : Option Str
deriving DecidableEq

/-- Modelled from the spec: gitno_extract_url_parts (netops.c, a caller of
which is ssh.c:283 but whose body is not under src). Spec section 4.2, form
one: after the scheme is stripped the authority runs to the first slash; an
optional user block, itself optionally split by a colon into user and pass,
stands before an at-sign; the rest is host with an optional colon-separated
port, the port defaulting to the supplied default. An empty host is a parse
error. -/
def gitno_extract_url_parts (url : Str) (defaultPort : Str) :
    Option UrlParts :=
  let auth := url.takeWhile (fun c => c != '/')
  let ui :=
    match strchrIdx auth '@' with
    | some ai => (some (auth.take ai), auth.drop (ai + 1))
    | none => (none, auth)
  let up :=
    match ui.1 with
    | none => ((none : Option Str), (none : Option Str))
    | some u =>
      match strchrIdx u ':' with
      | none => (some u, none)
      | some ci => (some (u.take ci), some (u.drop (ci + 1)))
  let hp :=
    match strchrIdx ui.2 ':' with
    | none => (ui.2, defaultPort)
    | some ci => (ui.2.take ci, ui.2.drop (ci + 1))
  if hp.1 = [] then none else some ⟨hp.1, hp.2, up.1, up.2⟩

/-- URL dissection as performed at ssh.c:281-289: URLs with the ssh scheme
go through the generic parser with default port 22; shorthand URLs go
through git_ssh_extract_url_parts, with the port fixed at 22, the username
always present (parsing defaults it to git) and no password. -/
def setupParse (url : Str) : Option UrlParts :=
  if prefix_ssh.isPrefixOf url then
    gitno_extract_url_parts (url.drop prefix_ssh.length) "22".toList
  else
    match git_ssh_extract_url_parts url with
    | none => none
    | some hu => some ⟨hu.1, "22".toList, some hu.2, none⟩

/-- Everything a setup call returns or leaves behind: the C return value,
the error kind reported on failure, the subtransport state, the contents of
the stream out parameter, the live-resource counts and the interaction
trace. -/
structure SetupOut where
  ret : Int
  err : Option GitError
  t : SshSubtransport
  out : OutPtr
  world : World
  tr : SetupTrace
  /-- True when the call executed git__free on the local host variable
  without that local ever having been assigned: the setup routine declares
  host uninitialized (ssh.c:271 initializes only user and pass), and when
  git_ssh_extract_url_parts fails it returns before assigning the host out
  parameter (ssh.c:206-210), yet the on_error path still frees host
  (ssh.c:352). Freeing an uninitialized pointer is undefined behaviour; the
  model records its occurrence and continues with the nominal control flow,
  since the consequences of undefined behaviour cannot be modelled. On
  every other path host has been assigned before the free. Whether the
  absent generic parser (netops.c) assigns host before failing on a
  scheme-form URL is outside this model, so the flag stays false there. -/
  freedUninitHost : Bool := false
deriving DecidableEq

/-- Embeds ssh.c:310-346, the tail of _git_ssh_setup_conn once the
credential is resolved: allocate the session, run the session-startup retry
loop, authenticate with the resolved credential (defaulting the username to
git first, ssh.c:306-308), run the channel-open loop with the stale
startup rc as guard, and on success store the handles into the stream and
install it as current. Every failure branch runs ssh_stream_free on the
stream (ssh.c:348-353); the session handle is still a local at that point,
so a failure after session allocation leaves the session unreleased. -/
def setupAfterCred (t1 : SshSubtransport) (cr : GitCred) (s1 : SshStream)
    (w1 : World) (tr : SetupTrace) (user : Option Str) (env : SetupEnv) :
    SetupOut :=
  let user2 := user.getD default_user
  if env.session_init_ok then
    let w2 := { w1 with sessionsLive := 1 }
    let st := firstNonTransient env.startup_pre env.startup_final
    let tr2 := { tr with startupCalls := st.2 }
    if st.1 = 0 then
      let ar := _git_ssh_authenticate_session cr user2 env
      let tr3 := { tr2 with authCalls := ar.2 }
      if ar.1 < 0 then
        let fw := ssh_stream_free t1 s1 w2
        { ret := -1, err := some GitError.authenticationFailure, t := fw.1,
          out := OutPtr.dangling, world := fw.2, tr := tr3 }
      else
        let ch := channelOpenLoop env.channel_answers st.1
        let tr4 := { tr3 with channelOpenCalls := ch.2 }
        match ch.1 with
        | ChanRes.opened =>
          let s2 := { s1 with hasSession := true, hasChannel := true }
          { ret := 0, err := none,
            t := { t1 with current_stream := some s2 },
            out := OutPtr.live s2,
            world := { w2 with channelsLive := 1 }, tr := tr4 }
        | _ =>
          let fw := ssh_stream_free t1 s1 w2
          { ret := -1, err := some GitError.channelFailure, t := fw.1,
            out := OutPtr.dangling, world := fw.2, tr := tr4 }
    else
      let fw := ssh_stream_free t1 s1 w2
      { ret := -1, err := some GitError.sessionFailure, t := fw.1,
        out := OutPtr.dangling, world := fw.2, tr := tr2 }
  else
    let fw := ssh_stream_free t1 s1 w1
    { ret := -1, err := some GitError.sessionFailure, t := fw.1,
      out := OutPtr.dangling, world := fw.2, tr := tr }

/-- Embeds ssh.c:294-308, credential resolution: with both a username and a
password from the URL a plaintext credential is built inline; otherwise the
credential callback is invoked with the parsed username as hint and the
mask allowing plaintext and keyfile-passphrase types. A negative callback
result returns -1 directly (ssh.c:302), with no teardown: the socket stays
open, the stream stays allocated and the out parameter still points at it,
and the subtransport is left untouched. -/
def credStage (t0 : SshSubtransport) (parts : UrlParts) (s1 : SshStream)
    (w1 : World) (tr1 : SetupTrace) (env : SetupEnv) : SetupOut :=
  match parts.user, parts.pass with
  | some u, some p =>
    let c := GitCred.userpassPlaintext u p
    setupAfterCred { t0 with cred := some c } c s1 w1
      { tr1 with resolvedCred := some c } (some u) env
  | u, _ =>
    let mask := GIT_CREDTYPE_USERPASS_PLAINTEXT |||
      GIT_CREDTYPE_SSH_KEYFILE_PASSPHRASE
    let trCb :=
      { tr1 with cbCalls := 1, cbHint := some u, cbTypes := some mask }
    match env.cred_cb u with
    | none =>
      { ret := -1, err := some GitError.credentialFailure, t := t0,
        out := OutPtr.live s1, world := w1, tr := trCb }
    | some c =>
      setupAfterCred { t0 with cred := some c } c s1 w1
        { trCb with resolvedCred := some c } u env

/-- Embeds _git_ssh_setup_conn (ssh.c:264-354): null the out parameter,
allocate the stream (the out parameter then points at it), parse the URL,
connect, and hand over to credential resolution and the session stages.
Parse and connect failures run ssh_stream_free on the fresh stream, which
also clears the stored current-stream field; the out parameter is left
pointing at the freed stream. On a shorthand parse failure the on_error
free of the host local hits an uninitialized pointer, recorded in
freedUninitHost (see that field). -/
def _git_ssh_setup_conn (t0 : SshSubtransport) (url cmd : Str)
    (env : SetupEnv) : SetupOut :=
  let s0 : SshStream := ⟨false, false, false, cmd, url, false⟩
  let w0 : World := ⟨0, 0, 0, 1⟩
  match setupParse url with
  | none =>
    let fw := ssh_stream_free t0 s0 w0
    { ret := -1, err := some GitError.malformedURL, t := fw.1,
      out := OutPtr.dangling, world := fw.2, tr := SetupTrace.empty,
      freedUninitHost := !(prefix_ssh.isPrefixOf url) }
  | some parts =>
    let tr1 := { SetupTrace.empty with
      connectHost := some parts.host, connectPort := some parts.port }
    if env.connect_ok then
      credStage t0 parts { s0 with socketOpen := true }
        { w0 with socketsOpen := 1 } tr1 env
    else
      let fw := ssh_stream_free t0 s0 w0
      { ret := -1, err := some GitError.connectionFailure, t := fw.1,
        out := OutPtr.dangling, world := fw.2, tr := tr1 }

/-- Embeds _git_uploadpack_ls (ssh.c:356-365). -/
def _git_uploadpack_ls (t : SshSubtransport) (url : Str) (env : SetupEnv) :
    SetupOut :=
  _git_ssh_setup_conn t url cmd_uploadpack env

/-- Embeds _git_receivepack_ls (ssh.c:383-392). -/
def _git_receivepack_ls (t : SshSubtransport) (url : Str) (env : SetupEnv) :
    SetupOut :=
  _git_ssh_setup_conn t url cmd_receivepack env

/-- Result of a transfer action: return value, error kind, and what the out
parameter holds afterwards. The subtransport is not part of the result
because the C functions only read it. -/
structure XferOut where
  ret : Int
  err : Option GitError
  out : OutPtr
deriving DecidableEq

/-- Embeds _git_uploadpack (ssh.c:367-381): with a stored current stream,
write it to the out parameter and succeed; without one, report the
must-call-ls-first protocol-sequence error and write nothing, so the out
parameter keeps whatever the caller left there (out0). -/
def _git_uploadpack (t : SshSubtransport) (out0 : OutPtr) : XferOut :=
  match t.current_stream with
  | some s => ⟨0, none, OutPtr.live s⟩
  | none => ⟨-1, some GitError.protocolSequence, out0⟩

/-- Embeds _git_receivepack (ssh.c:394-408), identical in structure to
_git_uploadpack. -/
def _git_receivepack (t : SshSubtransport) (out0 : OutPtr) : XferOut :=
  match t.current_stream with
  | some s => ⟨0, none, OutPtr.live s⟩
  | none => ⟨-1, some GitError.protocolSequence, out0⟩

/-- An environment in which every collaborator cooperates: connect works,
the callback yields the given credential, the session starts and
authenticates at the first try, and the channel opens at the first try. -/
def goodEnv (c : GitCred) : SetupEnv :=
  { connect_ok := true, cred_cb := fun _ => some c, session_init_ok := true,
    startup_pre := [], startup_final := 0, auth_pre := [], auth_final := 0,
    channel_answers := fun _ => ChanRes.opened }

/-- Behaviour of the channel during one stream operation: whether the exec
request succeeds (a failure is reported by a negative rc, per the provider
contract), and the rc of the channel read or write (a non-negative rc is a
byte count, a negative rc an error). -/
structure OpEnv where
  exec_ok : Bool
  io_rc : Int
deriving DecidableEq

/-- Channel interactions observable from outside a stream operation: an
exec request carrying the command bytes with its success flag, or a
successful byte transfer. -/
inductive SEv where
  | exec (req : Str) (ok : Bool)
  | bytes (n : Nat)
deriving DecidableEq

/-- Result of send_command: the rc, the stream, and the channel events. -/
structure SendOut where
  rc : Int
  s : SshStream
  ev : List SEv
deriving DecidableEq

/-- Embeds send_command (ssh.c:71-96): build the request with gen_proto,
issue it as an exec request over the channel, and set the sent_command flag
only after a successful exec. A gen_proto failure returns without touching
the channel; a failed exec leaves the flag unset. -/
def send_command (s : SshStream) (env : OpEnv) : SendOut :=
  match gen_proto s.cmd s.url with
  | none => ⟨-1, s, []⟩
  | some req =>
    if env.exec_ok then ⟨0, { s with sent_command := true }, [SEv.exec req true]⟩
    else ⟨-1, s, [SEv.exec req false]⟩

/-- Result of a stream read: rc, the bytes_read out value, the stream, and
the channel events. -/
structure ReadOut where
  ret : Int
  bytes_read : Nat
  s : SshStream
  ev : List SEv
deriving DecidableEq

/-- Result of a stream write: rc, the stream, and the channel events. -/
structure WriteOut where
  ret : Int
  s : SshStream
  ev : List SEv
deriving DecidableEq

/-- Embeds ssh_stream_read (ssh.c:98-118): zero bytes_read, send the
command first when the flag is unset and fail if that fails, then read from
the channel; a negative rc is an error, otherwise rc is the byte count. -/
def ssh_stream_read (s : SshStream) (env : OpEnv) : ReadOut :=
  if s.sent_command = false then
    let so := send_command s env
    if so.rc < 0 then ⟨-1, 0, so.s, so.ev⟩
    else if env.io_rc < 0 then ⟨-1, 0, so.s, so.ev⟩
    else ⟨0, env.io_rc.toNat, so.s, so.ev ++ [SEv.bytes env.io_rc.toNat]⟩
  else
    if env.io_rc < 0 then ⟨-1, 0, s, []⟩
    else ⟨0, env.io_rc.toNat, s, [SEv.bytes env.io_rc.toNat]⟩

/-- Embeds ssh_stream_write (ssh.c:120-136): send the command first when
the flag is unset and fail if that fails, then write to the channel; a
negative rc is an error, otherwise rc (the accepted byte count) is
returned. -/
def ssh_stream_write (s : SshStream) (env : OpEnv) : WriteOut :=
  if s.sent_command = false then
    let so := send_command s env
    if so.rc < 0 then ⟨-1, so.s, so.ev⟩
    else if env.io_rc < 0 then ⟨-1, so.s, so.ev⟩
    else ⟨env.io_rc, so.s, so.ev ++ [SEv.bytes env.io_rc.toNat]⟩
  else
    if env.io_rc < 0 then ⟨-1, s, []⟩
    else ⟨env.io_rc, s, [SEv.bytes env.io_rc.toNat]⟩

/-- One operation of a read/write sequence, with its channel behaviour. -/
inductive OpCall where
  | rd (env : OpEnv)
  | wr (env : OpEnv)
deriving DecidableEq

/-- Stream state and accumulated events after running operations. -/
structure RunOut where
  s : SshStream
  ev : List SEv
deriving DecidableEq

/-- Run one operation, keeping the stream state and the channel events. -/
def runOp (s : SshStream) (op : OpCall) : RunOut :=
  match op with
  | OpCall.rd env => let r := ssh_stream_read s env; ⟨r.s, r.ev⟩
  | OpCall.wr env => let r := ssh_stream_write s env; ⟨r.s, r.ev⟩

/-- Run a sequence of read and write operations on a stream, concatenating
the channel events in order. -/
def runOps (s : SshStream) (ops : List OpCall) : RunOut :=
  match ops with
  | [] => ⟨s, []⟩
  | op :: rest =>
    let r1 := runOp s op
    let r2 := runOps r1.s rest
    ⟨r2.s, r1.ev ++ r2.ev⟩

/-- Recognizes a successful exec event. -/
def isExecOk : SEv → Bool
  | SEv.exec _ true => true
  | _ => false

/-- Recognizes an exec event, successful or not. -/
def isExecEv : SEv → Bool
  | SEv.exec _ _ => true
  | _ => false

/-- Recognizes a byte-transfer event. -/
def isBytesEv : SEv → Bool
  | SEv.bytes _ => true
  | _ => false

/-- Number of successful exec events in a trace. -/
def execOkCount (tr : List SEv) : Nat := tr.countP isExecOk

/-- A credential for environments that need one. -/
def credG : GitCred := GitCred.userpassPlaintext "git".toList "pw".toList

/-- Environment in which the credential callback reports failure. -/
def envCbFail : SetupEnv := { goodEnv credG with cred_cb := fun _ => none }

/-- Environment in which authentication settles on a hard error. -/
def envAuthFail : SetupEnv := { goodEnv credG with auth_final := -18 }

/-- Environment in which session allocation fails. -/
def envSessFail : SetupEnv := { goodEnv credG with session_init_ok := false }

/-- Environment in which the first channel-open answer is a transient
would-block signal and every later attempt would succeed. -/
def envChanTransient : SetupEnv :=
  { goodEnv credG with
    channel_answers := fun k => if k = 0 then ChanRes.transientFail
      else ChanRes.opened }

/-- Environment in which session startup reports two transient signals
before settling on success. -/
def envStartupSlow : SetupEnv :=
  { goodEnv credG with
    startup_pre := [LIBSSH2_ERROR_EAGAIN, LIBSSH2_ERROR_TIMEOUT] }

/-- A fully constructed stream as installed by a successful setup for the
upload-pack service on the shorthand URL. -/
def streamW : SshStream := ⟨true, true, true, cmd_uploadpack, urlShorthand, false⟩

/-- A subtransport holding streamW as its current stream. -/
def subW : SshSubtransport := ⟨some streamW, none⟩

/-- A shorthand URL with no colon, the malformed case of spec property P5. -/
def urlNoColon : Str := "example.com/libgit2".toList

/-- An ssh-scheme URL carrying no username. -/
def urlSchemeNoUser : Str := "ssh://example.com/libgit2/libgit2".toList

/-- An ssh-scheme URL carrying both a username and a password. -/
def urlUserPass : Str := "ssh://u:p@example.com/libgit2/libgit2".toList

/-- A concrete two-operation sequence: a write, then a read, both with a
cooperating channel. -/
def wOps : List OpCall := [OpCall.wr ⟨true, 5⟩, OpCall.rd ⟨true, 3⟩]

/-- A shorthand URL with a colon but no at-sign. -/
def urlNoUser : Str := "example.com:libgit2/libgit2".toList

/-- An ssh-scheme URL with an authority but no path: setup accepts it (the
host is nonempty), but gen_proto finds no slash after the scheme, so
building the remote command fails on the installed stream. -/
def urlSchemeNoPath : Str := "ssh://example.com".toList

/-- The stream a successful setup installs for upload-pack on the
path-less scheme URL. -/
def streamNoPath : SshStream :=
  ⟨true, true, true, cmd_uploadpack, urlSchemeNoPath, false⟩

/-- The command gen_proto builds for upload-pack on the shorthand URL. -/
def reqShorthandUp : Str :=
  cmd_uploadpack ++ [' ', squote] ++ ":libgit2/libgit2".toList ++ [squote]

/-- Case analysis of the post-credential stages: the credential and the
already-recorded trace fields are preserved, and the call either succeeds,
installing exactly the input stream with its session and channel flags set
and exposing it through the out parameter, or fails with -1, a cleared
current-stream field and a dangling out parameter. -/
theorem setupAfterCred_cases (t1 : SshSubtransport) (cr : GitCred)
    (s1 : SshStream) (w1 : World) (tr : SetupTrace) (user : Option Str)
    (env : SetupEnv) :
    (setupAfterCred t1 cr s1 w1 tr user env).t.cred = t1.cred ∧
    (setupAfterCred t1 cr s1 w1 tr user env).tr.cbCalls = tr.cbCalls ∧
    (setupAfterCred t1 cr s1 w1 tr user env).tr.cbHint = tr.cbHint ∧
    (setupAfterCred t1 cr s1 w1 tr user env).tr.cbTypes = tr.cbTypes ∧
    (setupAfterCred t1 cr s1 w1 tr user env).tr.resolvedCred =
      tr.resolvedCred ∧
    (setupAfterCred t1 cr s1 w1 tr user env).tr.connectPort =
      tr.connectPort ∧
    (((setupAfterCred t1 cr s1 w1 tr user env).ret = 0 ∧
       (setupAfterCred t1 cr s1 w1 tr user env).t.current_stream =
         some { s1 with hasSession := true, hasChannel := true } ∧
       (setupAfterCred t1 cr s1 w1 tr user env).out =
         OutPtr.live { s1 with hasSession := true, hasChannel := true }) ∨
     ((setupAfterCred t1 cr s1 w1 tr user env).ret = -1 ∧
       (setupAfterCred t1 cr s1 w1 tr user env).t.current_stream = none ∧
       (setupAfterCred t1 cr s1 w1 tr user env).out = OutPtr.dangling)) := by
  simp only [setupAfterCred]
  split
  · split
    · split
      · simp [ssh_stream_free]
      · split <;> simp [ssh_stream_free]
    · simp [ssh_stream_free]
  · simp [ssh_stream_free]

/-- The return value of the post-credential stages does not depend on the
subtransport state threaded through them. -/
theorem setupAfterCred_ret_congr (ta tb : SshSubtransport) (cr : GitCred)
    (s1 : SshStream) (w1 : World) (tr : SetupTrace) (user : Option Str)
    (env : SetupEnv) :
    (setupAfterCred ta cr s1 w1 tr user env).ret =
      (setupAfterCred tb cr s1 w1 tr user env).ret := by
  simp only [setupAfterCred]
  split
  · split
    · split
      · rfl
      · split <;> rfl
    · rfl
  · rfl

/-- The return value of a setup call does not depend on the incoming
subtransport state: the C routine never reads the stored stream or the
stored credential, so a failed call can simply be repeated. -/
theorem setup_ret_congr (ta tb : SshSubtransport) (url cmd : Str)
    (env : SetupEnv) :
    (_git_ssh_setup_conn ta url cmd env).ret =
      (_git_ssh_setup_conn tb url cmd env).ret := by
  simp only [_git_ssh_setup_conn]
  cases h : setupParse url with
  | none => rfl
  | some parts =>
    simp only []
    split
    · simp only [credStage]
      rcases parts.user with _ | u <;> rcases parts.pass with _ | p <;>
        simp only [] <;>
        first
          | apply setupAfterCred_ret_congr
          | (split <;> first | rfl | apply setupAfterCred_ret_congr)
    · rfl

/-- On success a setup call installs, and exposes through the out
parameter, exactly the stream holding the requested command and the target
URL, with its socket, session and channel flags set and the command not
yet sent. -/
theorem setup_success_shape (t0 : SshSubtransport) (url cmd : Str)
    (env : SetupEnv) :
    (_git_ssh_setup_conn t0 url cmd env).ret = 0 →
      (_git_ssh_setup_conn t0 url cmd env).t.current_stream =
        some ⟨true, true, true, cmd, url, false⟩ ∧
      (_git_ssh_setup_conn t0 url cmd env).out =
        OutPtr.live ⟨true, true, true, cmd, url, false⟩ := by
  simp only [_git_ssh_setup_conn]
  cases h : setupParse url with
  | none => intro hr; simp at hr
  | some parts =>
    simp only []
    split
    · simp only [credStage]
      rcases parts.user with _ | u <;> rcases parts.pass with _ | p <;>
        simp only [] <;>
        [skip; skip; skip;
         (rcases setupAfterCred_cases { t0 with
              cred := some (GitCred.userpassPlaintext u p) }
            (GitCred.userpassPlaintext u p)
            ⟨true, false, false, cmd, url, false⟩ ⟨1, 0, 0, 1⟩
            _ (some u) env with ⟨-, -, -, -, -, -, hor⟩;
          rcases hor with ⟨h0, hs, ho⟩ | ⟨h1, -, -⟩;
          · intro hr; exact ⟨hs, ho⟩
          · intro hr; rw [h1] at hr; cases hr)] <;>
        (split
         · intro hr; simp at hr
         · rename_i c hcb
           rcases setupAfterCred_cases { t0 with cred := some c } c
              ⟨true, false, false, cmd, url, false⟩ ⟨1, 0, 0, 1⟩
              _ _ env with ⟨-, -, -, -, -, -, hor⟩
           rcases hor with ⟨h0, hs, ho⟩ | ⟨h1, -, -⟩
           · intro hr; exact ⟨hs, ho⟩
           · intro hr; rw [h1] at hr; cases hr)
    · intro hr; simp at hr

/-- On failure a setup call leaves the stored current-stream reference
unchanged or cleared to none, and leaves the stored credential unchanged
unless a credential was resolved during the attempt, in which case the
credential is exactly the resolved one. -/
theorem setup_fail_state (t0 : SshSubtransport) (url cmd : Str)
    (env : SetupEnv) :
    (_git_ssh_setup_conn t0 url cmd env).ret = -1 →
      ((_git_ssh_setup_conn t0 url cmd env).t.current_stream =
          t0.current_stream ∨
        (_git_ssh_setup_conn t0 url cmd env).t.current_stream = none) ∧
      ((_git_ssh_setup_conn t0 url cmd env).t.cred = t0.cred ∨
        (_git_ssh_setup_conn t0 url cmd env).t.cred =
          (_git_ssh_setup_conn t0 url cmd env).tr.resolvedCred) := by
  simp only [_git_ssh_setup_conn]
  cases h : setupParse url with
  | none =>
    intro hr
    exact ⟨Or.inr (by simp [ssh_stream_free]),
      Or.inl (by simp [ssh_stream_free])⟩
  | some parts =>
    simp only []
    split
    · simp only [credStage]
      rcases parts.user with _ | u <;> rcases parts.pass with _ | p <;>
        simp only [] <;>
        [skip; skip; skip;
         (rcases setupAfterCred_cases { t0 with
              cred := some (GitCred.userpassPlaintext u p) }
            (GitCred.userpassPlaintext u p)
            ⟨true, false, false, cmd, url, false⟩ ⟨1, 0, 0, 1⟩
            _ (some u) env with ⟨hcred, -, -, -, hres, -, hor⟩;
          intro hr;
          refine ⟨?_, Or.inr (by rw [hcred, hres])⟩;
          rcases hor with ⟨h0, -, -⟩ | ⟨-, hs, -⟩;
          · rw [h0] at hr; cases hr
          · exact Or.inr hs)] <;>
        (split
         · intro _; exact ⟨Or.inl rfl, Or.inl rfl⟩
         · rename_i c hcb
           rcases setupAfterCred_cases { t0 with cred := some c } c
              ⟨true, false, false, cmd, url, false⟩ ⟨1, 0, 0, 1⟩
              _ _ env with ⟨hcred, -, -, -, hres, -, hor⟩
           intro hr
           refine ⟨?_, Or.inr (by rw [hcred, hres])⟩
           rcases hor with ⟨h0, -, -⟩ | ⟨-, hs, -⟩
           · rw [h0] at hr; cases hr
           · exact Or.inr hs)
    · intro hr
      exact ⟨Or.inr (by simp [ssh_stream_free]),
        Or.inl (by simp [ssh_stream_free])⟩

/-- C1: the claim states that the remote command is the service command
followed by the repo path in single quotes, the repo path of a shorthand URL
being everything after the first colon, so that
git at example.com : libgit2/libgit2 with ReceivePackList yields exactly
git-receive-pack quote libgit2/libgit2 quote. The code disagrees on the
shorthand form: gen_proto takes the strchr result, which points at the
colon, so the quoted path keeps the colon. This theorem evaluates gen_proto
at both spec inputs: the ssh-scheme half (P3) holds, the shorthand half
produces the colon-bearing command, differing from the claimed one, and
send_command puts exactly those bytes into the exec request. -/
theorem claim_c1_shorthand_command_keeps_colon :
    gen_proto cmd_uploadpack urlScheme =
      some (cmd_uploadpack ++ [' ', squote] ++
        "/libgit2/libgit2".toList ++ [squote]) ∧
    gen_proto cmd_receivepack urlShorthand =
      some (cmd_receivepack ++ [' ', squote] ++
        ":libgit2/libgit2".toList ++ [squote]) ∧
    (cmd_receivepack ++ [' ', squote] ++ ":libgit2/libgit2".toList ++
        [squote]) ≠
      (cmd_receivepack ++ [' ', squote] ++ "libgit2/libgit2".toList ++
        [squote]) ∧
    (send_command ⟨true, true, true, cmd_receivepack, urlShorthand, false⟩
        ⟨true, 0⟩).ev =
      [SEv.exec (cmd_receivepack ++ [' ', squote] ++
        ":libgit2/libgit2".toList ++ [squote]) true] := by
  decide

/-- C2: the claim states that every failing setup step releases every
already-acquired resource and leaves the stream out parameter unset. The
code violates this: when the credential callback fails, setup returns -1
directly with no teardown, so the connected socket stays open, the stream
stays allocated and the out parameter still points at it; and on the
goto-on-error paths after session allocation the session handle is still a
local, not yet stored in the stream, so ssh_stream_free cannot release it
and an authentication failure leaks the session. This theorem evaluates
both failing runs. -/
theorem claim_c2_failed_setup_leaks_resources :
    ((_git_ssh_setup_conn ⟨none, none⟩ urlShorthand cmd_uploadpack
        envCbFail).ret = -1 ∧
     (_git_ssh_setup_conn ⟨none, none⟩ urlShorthand cmd_uploadpack
        envCbFail).err = some GitError.credentialFailure ∧
     (_git_ssh_setup_conn ⟨none, none⟩ urlShorthand cmd_uploadpack
        envCbFail).world.socketsOpen = 1 ∧
     (_git_ssh_setup_conn ⟨none, none⟩ urlShorthand cmd_uploadpack
        envCbFail).world.streamsLive = 1 ∧
     (_git_ssh_setup_conn ⟨none, none⟩ urlShorthand cmd_uploadpack
        envCbFail).out ≠ OutPtr.null) ∧
    ((_git_ssh_setup_conn ⟨none, none⟩ urlShorthand cmd_uploadpack
        envAuthFail).ret = -1 ∧
     (_git_ssh_setup_conn ⟨none, none⟩ urlShorthand cmd_uploadpack
        envAuthFail).err = some GitError.authenticationFailure ∧
     (_git_ssh_setup_conn ⟨none, none⟩ urlShorthand cmd_uploadpack
        envAuthFail).world.sessionsLive = 1 ∧
     (_git_ssh_setup_conn ⟨none, none⟩ urlShorthand cmd_uploadpack
        envAuthFail).out ≠ OutPtr.null) := by
  decide

/-- C3 counterexample: the claim states that a failed List action leaves
the stored controller state, current stream and resolved credential, exactly
as it was. Concretely: from an empty subtransport, a List action on the
shorthand URL whose session allocation fails still resolves a credential
through the callback first, and that credential stays stored, so the state
after the failed call differs from the state before it. -/
theorem claim_c3_counterexample :
    (_git_uploadpack_ls ⟨none, none⟩ urlShorthand envSessFail).ret = -1 ∧
    (_git_uploadpack_ls ⟨none, none⟩ urlShorthand envSessFail).t.cred ≠
      (⟨none, none⟩ : SshSubtransport).cred := by
  decide

/-- C3 amended: a List action whose ConnectionSetup fails never installs
the new stream: the stored current-stream reference is left unchanged or
cleared to none, and the stored credential is left unchanged unless a
credential was resolved during the failed attempt, in which case it holds
exactly that resolved credential; moreover the outcome of the action does
not depend on the stored controller state, so the action can be retried. -/
theorem claim_c3_amended (t0 : SshSubtransport) (url : Str)
    (env : SetupEnv) :
    ((_git_uploadpack_ls t0 url env).ret = -1 →
      ((_git_uploadpack_ls t0 url env).t.current_stream =
          t0.current_stream ∨
        (_git_uploadpack_ls t0 url env).t.current_stream = none) ∧
      ((_git_uploadpack_ls t0 url env).t.cred = t0.cred ∨
        (_git_uploadpack_ls t0 url env).t.cred =
          (_git_uploadpack_ls t0 url env).tr.resolvedCred)) ∧
    (∀ t1, (_git_uploadpack_ls t1 url env).ret =
      (_git_uploadpack_ls t0 url env).ret) := by
  exact ⟨setup_fail_state t0 url cmd_uploadpack env,
    fun t1 => setup_ret_congr t1 t0 url cmd_uploadpack env⟩

/-- C3 witness: the amended statement applied to the failing run of the
counterexample input. -/
theorem claim_c3_amended_witness :
    ((_git_uploadpack_ls ⟨none, none⟩ urlShorthand envSessFail).t.current_stream =
        (⟨none, none⟩ : SshSubtransport).current_stream ∨
      (_git_uploadpack_ls ⟨none, none⟩ urlShorthand
        envSessFail).t.current_stream = none) ∧
    ((_git_uploadpack_ls ⟨none, none⟩ urlShorthand envSessFail).t.cred =
        (⟨none, none⟩ : SshSubtransport).cred ∨
      (_git_uploadpack_ls ⟨none, none⟩ urlShorthand envSessFail).t.cred =
        (_git_uploadpack_ls ⟨none, none⟩ urlShorthand
          envSessFail).tr.resolvedCred) :=
  (claim_c3_amended ⟨none, none⟩ urlShorthand envSessFail).1 (by decide)

/-- C4: for both transfer actions, with a stored current stream the action
returns exactly that stream and no error, and without one it fails with the
protocol-sequence error and writes no stream, leaving the out parameter as
the caller left it. -/
theorem claim_c4_transfer_requires_stored_stream (t : SshSubtransport)
    (out0 : OutPtr) :
    (∀ s, t.current_stream = some s →
      _git_uploadpack t out0 = ⟨0, none, OutPtr.live s⟩ ∧
      _git_receivepack t out0 = ⟨0, none, OutPtr.live s⟩) ∧
    (t.current_stream = none →
      _git_uploadpack t out0 =
        ⟨-1, some GitError.protocolSequence, out0⟩ ∧
      _git_receivepack t out0 =
        ⟨-1, some GitError.protocolSequence, out0⟩) := by
  constructor
  · intro s hs
    simp [_git_uploadpack, _git_receivepack, hs]
  · intro hs
    simp [_git_uploadpack, _git_receivepack, hs]

/-- C4 witness: the theorem applied to a subtransport holding a stream and
to an empty one. -/
theorem claim_c4_witness :
    (_git_uploadpack subW OutPtr.null = ⟨0, none, OutPtr.live streamW⟩ ∧
     _git_receivepack subW OutPtr.null = ⟨0, none, OutPtr.live streamW⟩) ∧
    (_git_uploadpack ⟨none, none⟩ OutPtr.null =
       ⟨-1, some GitError.protocolSequence, OutPtr.null⟩ ∧
     _git_receivepack ⟨none, none⟩ OutPtr.null =
       ⟨-1, some GitError.protocolSequence, OutPtr.null⟩) :=
  ⟨(claim_c4_transfer_requires_stored_stream subW OutPtr.null).1 streamW
      (by decide),
   (claim_c4_transfer_requires_stored_stream ⟨none, none⟩ OutPtr.null).2
      (by decide)⟩

/-- C6: the claim states that a transient would-block signal from channel
open is retried like session startup and never surfaced as a setup
failure. The code violates this: the channel-open do-while guard tests rc,
the stale session-startup result, which is 0 there, so the body runs
exactly once and a transient first answer aborts setup as a channel
failure, even though a retry would have succeeded; session startup, by
contrast, really is retried past transient signals. This theorem evaluates
both runs. -/
theorem claim_c6_channel_open_not_retried :
    ((_git_ssh_setup_conn ⟨none, none⟩ urlShorthand cmd_uploadpack
        envChanTransient).ret = -1 ∧
     (_git_ssh_setup_conn ⟨none, none⟩ urlShorthand cmd_uploadpack
        envChanTransient).err = some GitError.channelFailure ∧
     (_git_ssh_setup_conn ⟨none, none⟩ urlShorthand cmd_uploadpack
        envChanTransient).tr.channelOpenCalls = 1 ∧
     envChanTransient.channel_answers 1 = ChanRes.opened) ∧
    ((_git_ssh_setup_conn ⟨none, none⟩ urlShorthand cmd_uploadpack
        envStartupSlow).ret = 0 ∧
     (_git_ssh_setup_conn ⟨none, none⟩ urlShorthand cmd_uploadpack
        envStartupSlow).tr.startupCalls = 3) := by
  decide

/-- C9: a transfer action returns the stored current stream whatever
service created it: with any stored stream both transfer actions return
exactly that stream, and after a successful UploadPackList the stored
stream carries the upload-pack command and ReceivePack returns it, and
symmetrically after a successful ReceivePackList UploadPack returns the
receive-pack stream; no check compares the action kind with the stream
command. -/
theorem claim_c9_transfer_ignores_stream_kind (t : SshSubtransport)
    (s : SshStream) (out0 : OutPtr) :
    (t.current_stream = some s →
      _git_receivepack t out0 = ⟨0, none, OutPtr.live s⟩ ∧
      _git_uploadpack t out0 = ⟨0, none, OutPtr.live s⟩) ∧
    (∀ t0 url env, (_git_uploadpack_ls t0 url env).ret = 0 →
      (_git_uploadpack_ls t0 url env).t.current_stream =
        some ⟨true, true, true, cmd_uploadpack, url, false⟩ ∧
      _git_receivepack (_git_uploadpack_ls t0 url env).t out0 =
        ⟨0, none,
          OutPtr.live ⟨true, true, true, cmd_uploadpack, url, false⟩⟩) ∧
    (∀ t0 url env, (_git_receivepack_ls t0 url env).ret = 0 →
      (_git_receivepack_ls t0 url env).t.current_stream =
        some ⟨true, true, true, cmd_receivepack, url, false⟩ ∧
      _git_uploadpack (_git_receivepack_ls t0 url env).t out0 =
        ⟨0, none,
          OutPtr.live ⟨true, true, true, cmd_receivepack, url, false⟩⟩) := by
  refine ⟨?_, ?_, ?_⟩
  · intro hs
    simp [_git_uploadpack, _git_receivepack, hs]
  · intro t0 url env hr
    have h := (setup_success_shape t0 url cmd_uploadpack env hr).1
    exact ⟨h, by simp [_git_receivepack, _git_uploadpack_ls] at h ⊢; simp [h]⟩
  · intro t0 url env hr
    have h := (setup_success_shape t0 url cmd_receivepack env hr).1
    exact ⟨h, by simp [_git_uploadpack, _git_receivepack_ls] at h ⊢; simp [h]⟩

/-- C9 witness: the theorem applied to a stored upload-pack stream and to a
successful UploadPackList run followed by ReceivePack, and the symmetric
run. -/
theorem claim_c9_witness :
    (_git_receivepack subW OutPtr.null = ⟨0, none, OutPtr.live streamW⟩ ∧
     _git_uploadpack subW OutPtr.null = ⟨0, none, OutPtr.live streamW⟩) ∧
    ((_git_uploadpack_ls ⟨none, none⟩ urlShorthand
        (goodEnv credG)).t.current_stream =
      some ⟨true, true, true, cmd_uploadpack, urlShorthand, false⟩ ∧
     _git_receivepack
        (_git_uploadpack_ls ⟨none, none⟩ urlShorthand (goodEnv credG)).t
        OutPtr.null =
      ⟨0, none, OutPtr.live
        ⟨true, true, true, cmd_uploadpack, urlShorthand, false⟩⟩) ∧
    ((_git_receivepack_ls ⟨none, none⟩ urlShorthand
        (goodEnv credG)).t.current_stream =
      some ⟨true, true, true, cmd_receivepack, urlShorthand, false⟩ ∧
     _git_uploadpack
        (_git_receivepack_ls ⟨none, none⟩ urlShorthand (goodEnv credG)).t
        OutPtr.null =
      ⟨0, none, OutPtr.live
        ⟨true, true, true, cmd_receivepack, urlShorthand, false⟩⟩) :=
  ⟨(claim_c9_transfer_ignores_stream_kind subW streamW OutPtr.null).1
     (by decide),
   (claim_c9_transfer_ignores_stream_kind subW streamW OutPtr.null).2.1
     ⟨none, none⟩ urlShorthand (goodEnv credG) (by decide),
   (claim_c9_transfer_ignores_stream_kind subW streamW OutPtr.null).2.2
     ⟨none, none⟩ urlShorthand (goodEnv credG) (by decide)⟩

/-- Behaviour of one stream operation: the command and URL fields never
change; with the flag already set the operation leaves the stream alone and
at most transfers bytes; with the flag unset it either fails to send
(stream unchanged, no event or one failed exec event carrying the gen_proto
command) or sends successfully (flag set, one successful exec event, then
possibly one transfer). -/
theorem runOp_spec (s : SshStream) (op : OpCall) :
    (runOp s op).s.cmd = s.cmd ∧ (runOp s op).s.url = s.url ∧
    (s.sent_command = true →
      (runOp s op).s = s ∧
      ((runOp s op).ev = [] ∨ ∃ n, (runOp s op).ev = [SEv.bytes n])) ∧
    (s.sent_command = false →
      ((runOp s op).s = s ∧
        ((runOp s op).ev = [] ∨
          ∃ req, gen_proto s.cmd s.url = some req ∧
            (runOp s op).ev = [SEv.exec req false])) ∨
      ((runOp s op).s = { s with sent_command := true } ∧
        ∃ req, gen_proto s.cmd s.url = some req ∧
          ((runOp s op).ev = [SEv.exec req true] ∨
            ∃ n, (runOp s op).ev = [SEv.exec req true, SEv.bytes n]))) := by
  cases op with
  | rd env =>
    simp only [runOp, ssh_stream_read]
    cases hsc : s.sent_command with
    | true =>
      simp only [Bool.true_eq_false, if_false]
      split <;> simp [hsc]
    | false =>
      simp only [if_true]
      cases hgp : gen_proto s.cmd s.url with
      | none =>
        simp [send_command, hgp, hsc]
      | some req =>
        cases hex : env.exec_ok with
        | false =>
          simp [send_command, hgp, hex, hsc]
        | true =>
          simp only [send_command, hgp, hex, if_true, lt_self_iff_false,
            if_false]
          refine ⟨?_, ?_, ?_, ?_⟩
          · split <;> rfl
          · split <;> rfl
          · intro h; exact Bool.noConfusion h
          · intro _
            right
            constructor
            · split <;> rfl
            · refine ⟨req, rfl, ?_⟩
              split
              · left; rfl
              · right; exact ⟨env.io_rc.toNat, rfl⟩
  | wr env =>
    simp only [runOp, ssh_stream_write]
    cases hsc : s.sent_command with
    | true =>
      simp only [Bool.true_eq_false, if_false]
      split <;> simp [hsc]
    | false =>
      simp only [if_true]
      cases hgp : gen_proto s.cmd s.url with
      | none =>
        simp [send_command, hgp, hsc]
      | some req =>
        cases hex : env.exec_ok with
        | false =>
          simp [send_command, hgp, hex, hsc]
        | true =>
          simp only [send_command, hgp, hex, if_true, lt_self_iff_false,
            if_false]
          refine ⟨?_, ?_, ?_, ?_⟩
          · split <;> rfl
          · split <;> rfl
          · intro h; exact Bool.noConfusion h
          · intro _
            right
            constructor
            · split <;> rfl
            · refine ⟨req, rfl, ?_⟩
              split
              · left; rfl
              · right; exact ⟨env.io_rc.toNat, rfl⟩

theorem isExecOk_exec (r : Str) (b : Bool) : isExecOk (SEv.exec r b) = b := by
  cases b <;> rfl

theorem isExecOk_bytes (n : Nat) : isExecOk (SEv.bytes n) = false := rfl

theorem isBytesEv_exec (r : Str) (b : Bool) :
    isBytesEv (SEv.exec r b) = false := rfl

theorem isBytesEv_bytes (n : Nat) : isBytesEv (SEv.bytes n) = true := rfl

theorem isExecEv_exec (r : Str) (b : Bool) :
    isExecEv (SEv.exec r b) = true := rfl

theorem isExecEv_bytes (n : Nat) : isExecEv (SEv.bytes n) = false := rfl

theorem execOkCount_cons (e : SEv) (l : List SEv) :
    execOkCount (e :: l) = (if isExecOk e then 1 else 0) + execOkCount l := by
  simp [execOkCount, List.countP_cons, Nat.add_comm]

theorem execOkCount_append (l1 l2 : List SEv) :
    execOkCount (l1 ++ l2) = execOkCount l1 + execOkCount l2 := by
  simp [execOkCount, List.countP_append]

theorem execOkCount_zero_of_bytes (l : List SEv)
    (h : ∀ ev ∈ l, isBytesEv ev = true) : execOkCount l = 0 := by
  rw [execOkCount, List.countP_eq_zero]
  intro a ha
  have hb := h a ha
  cases a with
  | exec r b => exact Bool.noConfusion hb
  | bytes n => simp [isExecOk]

theorem not_exec_of_bytes (ev : SEv) (h : isBytesEv ev = true) :
    isExecEv ev = false := by
  cases ev with
  | exec r b => exact Bool.noConfusion h
  | bytes n => rfl

theorem runOps_spec (ops : List OpCall) : ∀ (s : SshStream),
    (runOps s ops).s.cmd = s.cmd ∧ (runOps s ops).s.url = s.url ∧
    (s.sent_command = true →
      (runOps s ops).s = s ∧
      ∀ ev ∈ (runOps s ops).ev, isBytesEv ev = true) ∧
    (s.sent_command = false →
      execOkCount (runOps s ops).ev =
        (if (runOps s ops).s.sent_command then 1 else 0) ∧
      (∀ pre ev suf, (runOps s ops).ev = pre ++ ev :: suf →
        (isBytesEv ev = true → execOkCount pre = 1) ∧
        (isExecEv ev = true → execOkCount pre = 0 ∧
          ∃ req b, ev = SEv.exec req b ∧
            gen_proto s.cmd s.url = some req))) := by
  induction ops with
  | nil =>
    intro s
    refine ⟨rfl, rfl, fun _ => ⟨rfl, by simp [runOps]⟩, fun hsc => ⟨?_, ?_⟩⟩
    · simp [runOps, hsc, execOkCount]
    · intro pre ev suf h
      simp [runOps] at h
  | cons op rest ih =>
    intro s
    have hop := runOp_spec s op
    have hih := ih (runOp s op).s
    have hshape : runOps s (op :: rest) =
        ⟨(runOps (runOp s op).s rest).s,
          (runOp s op).ev ++ (runOps (runOp s op).s rest).ev⟩ := rfl
    rw [hshape]
    rcases hop with ⟨hcmd1, hurl1, htrue1, hfalse1⟩
    rcases hih with ⟨hcmd2, hurl2, htrue2, hfalse2⟩
    refine ⟨by rw [hcmd2, hcmd1], by rw [hurl2, hurl1], ?_, ?_⟩
    · -- flag already set: only byte transfers can follow
      intro hsc
      rcases htrue1 hsc with ⟨hs1, hev1⟩
      rcases htrue2 (by rw [hs1, hsc]) with ⟨hs2, hev2⟩
      refine ⟨by rw [hs2, hs1], ?_⟩
      intro ev hev
      rcases List.mem_append.mp hev with hl | hr
      · rcases hev1 with h0 | ⟨n, hn⟩
        · rw [h0] at hl; cases hl
        · rw [hn] at hl
          rcases List.mem_singleton.mp hl with rfl
          rfl
      · exact hev2 ev hr
    · -- flag not yet set
      intro hsc
      rcases hfalse1 hsc with ⟨hs1, hev1⟩ | ⟨hs1, req, hgp, hev1⟩
      · -- this operation did not send; the stream is unchanged
        have hff : (runOp s op).s.sent_command = false := by
          rw [hs1]; exact hsc
        rcases hfalse2 hff with ⟨hcount2, hdec2⟩
        have hgen2 : ∀ r, gen_proto (runOp s op).s.cmd (runOp s op).s.url =
            some r → gen_proto s.cmd s.url = some r := by
          intro r hr; rw [hs1] at hr; exact hr
        rcases hev1 with h0 | ⟨req, hgp, hev⟩
        · -- no events from this operation
          rw [h0, List.nil_append]
          refine ⟨hcount2, fun pre ev suf h => ?_⟩
          have hd := hdec2 pre ev suf h
          refine ⟨hd.1, fun hx => ⟨(hd.2 hx).1, ?_⟩⟩
          rcases (hd.2 hx).2 with ⟨r, b, hevx, hg⟩
          exact ⟨r, b, hevx, hgen2 r hg⟩
        · -- one failed exec attempt, then the rest
          rw [hev, List.cons_append, List.nil_append]
          constructor
          · rw [execOkCount_cons, isExecOk_exec, if_neg (by simp), hcount2,
              Nat.zero_add]
          · intro pre ev suf h
            cases pre with
            | nil =>
              rw [List.nil_append] at h
              rcases List.cons.injEq .. ▸ h with ⟨rfl, rfl⟩
              refine ⟨fun hb => Bool.noConfusion hb, fun _ => ?_⟩
              exact ⟨rfl, req, false, rfl, hgp⟩
            | cons a pre2 =>
              rw [List.cons_append] at h
              rcases List.cons.injEq .. ▸ h with ⟨rfl, h2⟩
              have hd := hdec2 pre2 ev suf h2
              constructor
              · intro hb
                rw [execOkCount_cons, isExecOk_exec, if_neg (by simp),
                  hd.1 hb]
              · intro hx
                refine ⟨?_, ?_⟩
                · rw [execOkCount_cons, isExecOk_exec, if_neg (by simp),
                    (hd.2 hx).1]
                · rcases (hd.2 hx).2 with ⟨r, b, hevx, hg⟩
                  exact ⟨r, b, hevx, hgen2 r hg⟩
      · -- this operation sent the command successfully
        have hft : (runOp s op).s.sent_command = true := by rw [hs1]
        rcases htrue2 hft with ⟨hs2, hbytes2⟩
        have hcount2 : execOkCount (runOps (runOp s op).s rest).ev = 0 :=
          execOkCount_zero_of_bytes _ hbytes2
        have hsent : (runOps (runOp s op).s rest).s.sent_command = true := by
          rw [hs2]; exact hft
        rcases hev1 with hev | ⟨n, hev⟩
        · -- events of this operation: one successful exec
          rw [hev, List.cons_append, List.nil_append]
          constructor
          · rw [execOkCount_cons, isExecOk_exec, if_pos rfl, hcount2,
              if_pos hsent]
          · intro pre ev suf h
            cases pre with
            | nil =>
              rw [List.nil_append] at h
              rcases List.cons.injEq .. ▸ h with ⟨rfl, h2⟩
              refine ⟨fun hb => Bool.noConfusion hb, fun _ => ?_⟩
              exact ⟨rfl, req, true, rfl, hgp⟩
            | cons a pre2 =>
              rw [List.cons_append] at h
              rcases List.cons.injEq .. ▸ h with ⟨rfl, h2⟩
              have hevin : ev ∈ (runOps (runOp s op).s rest).ev := by
                rw [h2]
                exact List.mem_append.mpr (Or.inr (List.mem_cons_self _ _))
              have hb : isBytesEv ev = true := hbytes2 ev hevin
              have hpre2 : execOkCount pre2 = 0 := by
                apply execOkCount_zero_of_bytes
                intro x hx
                exact hbytes2 x
                  (by rw [h2]; exact List.mem_append.mpr (Or.inl hx))
              refine ⟨fun _ => ?_, fun hx => ?_⟩
              · rw [execOkCount_cons, isExecOk_exec, if_pos rfl, hpre2]
              · rw [not_exec_of_bytes ev hb] at hx
                exact Bool.noConfusion hx
        · -- events of this operation: one successful exec, one transfer
          rw [hev, List.cons_append, List.cons_append, List.nil_append]
          constructor
          · rw [execOkCount_cons, execOkCount_cons, isExecOk_exec,
              isExecOk_bytes, if_pos rfl, if_neg (by simp), hcount2,
              if_pos hsent]
          · intro pre ev suf h
            cases pre with
            | nil =>
              rw [List.nil_append] at h
              rcases List.cons.injEq .. ▸ h with ⟨rfl, h2⟩
              refine ⟨fun hb => Bool.noConfusion hb, fun _ => ?_⟩
              exact ⟨rfl, req, true, rfl, hgp⟩
            | cons a pre2 =>
              rw [List.cons_append] at h
              rcases List.cons.injEq .. ▸ h with ⟨rfl, h2⟩
              cases pre2 with
              | nil =>
                rw [List.nil_append] at h2
                rcases List.cons.injEq .. ▸ h2 with ⟨rfl, h3⟩
                refine ⟨fun _ => ?_, fun hx => Bool.noConfusion hx⟩
                rw [execOkCount_cons, isExecOk_exec, if_pos rfl]
                rfl
              | cons a2 pre3 =>
                rw [List.cons_append] at h2
                rcases List.cons.injEq .. ▸ h2 with ⟨rfl, h3⟩
                have hevin : ev ∈ (runOps (runOp s op).s rest).ev := by
                  rw [h3]
                  exact List.mem_append.mpr (Or.inr (List.mem_cons_self _ _))
                have hb : isBytesEv ev = true := hbytes2 ev hevin
                have hpre3 : execOkCount pre3 = 0 := by
                  apply execOkCount_zero_of_bytes
                  intro x hx
                  exact hbytes2 x
                    (by rw [h3]; exact List.mem_append.mpr (Or.inl hx))
                refine ⟨fun _ => ?_, fun hx => ?_⟩
                · rw [execOkCount_cons, execOkCount_cons, isExecOk_exec,
                    isExecOk_bytes, if_pos rfl, if_neg (by simp), hpre3]
                · rw [not_exec_of_bytes ev hb] at hx
                  exact Bool.noConfusion hx

/-- Credential resolution does not touch the recorded connect port. -/
theorem credStage_connectPort (t0 : SshSubtransport) (parts : UrlParts)
    (s1 : SshStream) (w1 : World) (tr1 : SetupTrace) (env : SetupEnv) :
    (credStage t0 parts s1 w1 tr1 env).tr.connectPort = tr1.connectPort := by
  simp only [credStage]
  rcases parts.user with _ | u <;> rcases parts.pass with _ | p <;>
    simp only [] <;>
    first
      | exact (setupAfterCred_cases _ _ _ _ _ _ _).2.2.2.2.2.1
      | (split
         · rfl
         · exact (setupAfterCred_cases _ _ _ _ _ _ _).2.2.2.2.2.1)

/-- General shape of git_ssh_extract_url_parts: no colon is a parse
failure; with the first colon at ci, no at-sign gives the text before the
colon as host and git as username, and a first at-sign at ai gives the
text before the at-sign as username and the text before the colon with the
leading part through the at-sign stripped as host. -/
theorem git_ssh_extract_parts_shape (url : Str) :
    (strchrIdx url ':' = none → git_ssh_extract_url_parts url = none) ∧
    (∀ ci, strchrIdx url ':' = some ci →
      (strchrIdx url '@' = none →
        git_ssh_extract_url_parts url = some (url.take ci, default_user)) ∧
      (∀ ai, strchrIdx url '@' = some ai →
        git_ssh_extract_url_parts url =
          some ((url.take ci).drop (ai + 1), url.take ai))) := by
  constructor
  · intro hc
    simp [git_ssh_extract_url_parts, hc]
  · intro ci hc
    constructor
    · intro ha
      simp [git_ssh_extract_url_parts, hc, ha]
    · intro ai ha
      simp [git_ssh_extract_url_parts, hc, ha, List.drop_take]

/-- C7: the claim states that a shorthand URL without a colon makes setup
fail with MalformedURL, leaving no sockets, sessions or channels open. The
code sets that error and opens nothing, but its failure path is not the
claimed clean failure: among the locals of _git_ssh_setup_conn only user
and pass are initialized at declaration, git_ssh_extract_url_parts returns
-1 without assigning the host out parameter, and on_error then executes
git__free on the never-assigned host local, undefined behaviour recorded
here by the freedUninitHost flag. This theorem evaluates the failing run
and, for the well-formed half of the claim, the extraction of host, of the
username before the at-sign, of the git default without one, the fixed
port 22, and that a well-formed run frees only an assigned host. -/
theorem claim_c7_malformed_url_frees_uninitialized_host :
    (_git_ssh_setup_conn ⟨none, none⟩ urlNoColon cmd_uploadpack
      (goodEnv credG)).ret = -1 ∧
    (_git_ssh_setup_conn ⟨none, none⟩ urlNoColon cmd_uploadpack
      (goodEnv credG)).err = some GitError.malformedURL ∧
    (_git_ssh_setup_conn ⟨none, none⟩ urlNoColon cmd_uploadpack
      (goodEnv credG)).world.socketsOpen = 0 ∧
    (_git_ssh_setup_conn ⟨none, none⟩ urlNoColon cmd_uploadpack
      (goodEnv credG)).world.sessionsLive = 0 ∧
    (_git_ssh_setup_conn ⟨none, none⟩ urlNoColon cmd_uploadpack
      (goodEnv credG)).world.channelsLive = 0 ∧
    (_git_ssh_setup_conn ⟨none, none⟩ urlNoColon cmd_uploadpack
      (goodEnv credG)).freedUninitHost = true ∧
    strchrIdx urlNoColon ':' = none ∧
    git_ssh_extract_url_parts urlShorthand =
      some ("example.com".toList, "git".toList) ∧
    git_ssh_extract_url_parts urlNoUser =
      some ("example.com".toList, default_user) ∧
    (_git_ssh_setup_conn ⟨none, none⟩ urlShorthand cmd_uploadpack
      (goodEnv credG)).tr.connectPort = some "22".toList ∧
    (_git_ssh_setup_conn ⟨none, none⟩ urlShorthand cmd_uploadpack
      (goodEnv credG)).freedUninitHost = false := by
  decide

/-- C8 counterexample: the claim states that when the callback is invoked
it uses git as the default username when none was present in the URL. For
an ssh-scheme URL without a username the callback is invoked with no
username hint at all: the git default is applied only after credential
resolution, for authentication. -/
theorem claim_c8_counterexample :
    (_git_ssh_setup_conn ⟨none, none⟩ urlSchemeNoUser cmd_uploadpack
      (goodEnv credG)).tr.cbCalls = 1 ∧
    (_git_ssh_setup_conn ⟨none, none⟩ urlSchemeNoUser cmd_uploadpack
      (goodEnv credG)).tr.cbHint = some none ∧
    (_git_ssh_setup_conn ⟨none, none⟩ urlSchemeNoUser cmd_uploadpack
      (goodEnv credG)).tr.cbHint ≠ some (some default_user) := by
  decide

/-- C8 amended: when the URL carries both a username and a password a
plaintext credential is built inline, without invoking the callback;
otherwise the callback is invoked exactly once, advertising exactly the
plaintext and keyfile-passphrase capability mask, with the parsed username
as hint: shorthand parsing always supplies a username (defaulting it to
git), while an ssh-scheme URL without a username leads to a callback
invocation with no username hint. -/
theorem claim_c8_amended (t0 : SshSubtransport) (url cmd : Str)
    (env : SetupEnv) (parts : UrlParts) (hp : setupParse url = some parts)
    (hc : env.connect_ok = true) :
    (∀ u p, parts.user = some u → parts.pass = some p →
      (_git_ssh_setup_conn t0 url cmd env).tr.cbCalls = 0 ∧
      (_git_ssh_setup_conn t0 url cmd env).tr.resolvedCred =
        some (GitCred.userpassPlaintext u p) ∧
      (_git_ssh_setup_conn t0 url cmd env).t.cred =
        some (GitCred.userpassPlaintext u p)) ∧
    ((parts.user.isSome = false ∨ parts.pass.isSome = false) →
      (_git_ssh_setup_conn t0 url cmd env).tr.cbCalls = 1 ∧
      (_git_ssh_setup_conn t0 url cmd env).tr.cbHint = some parts.user ∧
      (_git_ssh_setup_conn t0 url cmd env).tr.cbTypes =
        some (GIT_CREDTYPE_USERPASS_PLAINTEXT |||
          GIT_CREDTYPE_SSH_KEYFILE_PASSPHRASE)) ∧
    (prefix_ssh.isPrefixOf url = false → parts.user.isSome = true) := by
  refine ⟨?_, ?_, ?_⟩
  · intro u p hu hpp
    simp only [_git_ssh_setup_conn, hp, hc, if_true, credStage, hu, hpp]
    rcases setupAfterCred_cases { t0 with
        cred := some (GitCred.userpassPlaintext u p) }
      (GitCred.userpassPlaintext u p)
      ⟨true, false, false, cmd, url, false⟩ ⟨1, 0, 0, 1⟩ _ (some u) env with
      ⟨hcred, hcb, -, -, hres, -, -⟩
    exact ⟨hcb, hres, hcred⟩
  · intro h
    cases hu : parts.user with
    | some u =>
      cases hpp : parts.pass with
      | some p => rw [hu, hpp] at h; simp at h
      | none =>
        simp only [_git_ssh_setup_conn, hp, hc, if_true, credStage, hu, hpp]
        split
        · simp
        · rename_i c hcb
          rcases setupAfterCred_cases { t0 with cred := some c } c
            ⟨true, false, false, cmd, url, false⟩ ⟨1, 0, 0, 1⟩ _ _ env with
            ⟨-, hcb2, hh, ht, -, -, -⟩
          rw [hcb2, hh, ht]
          exact ⟨rfl, rfl, rfl⟩
    | none =>
      cases hpp : parts.pass with
      | some p =>
        simp only [_git_ssh_setup_conn, hp, hc, if_true, credStage, hu, hpp]
        split
        · simp
        · rename_i c hcb
          rcases setupAfterCred_cases { t0 with cred := some c } c
            ⟨true, false, false, cmd, url, false⟩ ⟨1, 0, 0, 1⟩ _ _ env with
            ⟨-, hcb2, hh, ht, -, -, -⟩
          rw [hcb2, hh, ht]
          exact ⟨rfl, rfl, rfl⟩
      | none =>
        simp only [_git_ssh_setup_conn, hp, hc, if_true, credStage, hu, hpp]
        split
        · simp
        · rename_i c hcb
          rcases setupAfterCred_cases { t0 with cred := some c } c
            ⟨true, false, false, cmd, url, false⟩ ⟨1, 0, 0, 1⟩ _ _ env with
            ⟨-, hcb2, hh, ht, -, -, -⟩
          rw [hcb2, hh, ht]
          exact ⟨rfl, rfl, rfl⟩
  · intro hsh
    simp only [setupParse, hsh, Bool.false_eq_true, if_false] at hp
    cases hx : git_ssh_extract_url_parts url with
    | none => rw [hx] at hp; cases hp
    | some hu => rw [hx] at hp; cases hp; rfl

/-- C8 witness: the amended statement applied to an ssh-scheme URL with a
username and a password (inline plaintext, no callback) and to the
ssh-scheme URL of P3 with username git and no password (callback with hint
git and the two-type mask). -/
theorem claim_c8_amended_witness :
    ((_git_ssh_setup_conn ⟨none, none⟩ urlUserPass cmd_uploadpack
        (goodEnv credG)).tr.cbCalls = 0 ∧
     (_git_ssh_setup_conn ⟨none, none⟩ urlUserPass cmd_uploadpack
        (goodEnv credG)).tr.resolvedCred =
       some (GitCred.userpassPlaintext "u".toList "p".toList) ∧
     (_git_ssh_setup_conn ⟨none, none⟩ urlUserPass cmd_uploadpack
        (goodEnv credG)).t.cred =
       some (GitCred.userpassPlaintext "u".toList "p".toList)) ∧
    ((_git_ssh_setup_conn ⟨none, none⟩ urlScheme cmd_uploadpack
        (goodEnv credG)).tr.cbCalls = 1 ∧
     (_git_ssh_setup_conn ⟨none, none⟩ urlScheme cmd_uploadpack
        (goodEnv credG)).tr.cbHint = some (some "git".toList) ∧
     (_git_ssh_setup_conn ⟨none, none⟩ urlScheme cmd_uploadpack
        (goodEnv credG)).tr.cbTypes =
       some (GIT_CREDTYPE_USERPASS_PLAINTEXT |||
         GIT_CREDTYPE_SSH_KEYFILE_PASSPHRASE)) :=
  ⟨(claim_c8_amended ⟨none, none⟩ urlUserPass cmd_uploadpack (goodEnv credG)
      ⟨"example.com".toList, "22".toList, some "u".toList,
        some "p".toList⟩ (by decide) (by decide)).1
      "u".toList "p".toList (by decide) (by decide),
   (claim_c8_amended ⟨none, none⟩ urlScheme cmd_uploadpack (goodEnv credG)
      ⟨"example.com".toList, "22".toList, some "git".toList, none⟩
      (by decide) (by decide)).2.1 (by decide)⟩

/-- C5: over any sequence of reads and writes on a fresh stream, at most
one successful command send occurs; every successful byte transfer is
strictly preceded by exactly one successful send, whichever operation kind
triggered it; no send attempt, successful or failed, happens once a
successful send has occurred; and every send carries exactly the gen_proto
command of the stream. -/
theorem claim_c5_command_sent_once_before_transfer (s0 : SshStream)
    (ops : List OpCall) (h : s0.sent_command = false) :
    execOkCount (runOps s0 ops).ev ≤ 1 ∧
    (∀ n pre suf, (runOps s0 ops).ev = pre ++ SEv.bytes n :: suf →
      execOkCount pre = 1) ∧
    (∀ req b pre suf, (runOps s0 ops).ev = pre ++ SEv.exec req b :: suf →
      execOkCount pre = 0 ∧ gen_proto s0.cmd s0.url = some req) := by
  rcases runOps_spec ops s0 with ⟨-, -, -, hfalse⟩
  rcases hfalse h with ⟨hcount, hdec⟩
  refine ⟨?_, ?_, ?_⟩
  · rw [hcount]; split <;> omega
  · intro n pre suf hh
    exact (hdec pre _ suf hh).1 rfl
  · intro req b pre suf hh
    have hd := (hdec pre _ suf hh).2 rfl
    rcases hd with ⟨h0, r, bb, hevx, hg⟩
    injection hevx with h1 h2
    subst h1
    exact ⟨h0, hg⟩

/-- C5 witness: the theorem applied to the fresh upload-pack stream and a
write-then-read sequence. -/
theorem claim_c5_witness :
    streamW.sent_command = false ∧
    (execOkCount (runOps streamW wOps).ev ≤ 1 ∧
     (∀ n pre suf, (runOps streamW wOps).ev = pre ++ SEv.bytes n :: suf →
       execOkCount pre = 1) ∧
     (∀ req b pre suf,
       (runOps streamW wOps).ev = pre ++ SEv.exec req b :: suf →
       execOkCount pre = 0 ∧ gen_proto streamW.cmd streamW.url = some req)) :=
  ⟨by decide, claim_c5_command_sent_once_before_transfer streamW wOps
    (by decide)⟩

/-- C10: when building or sending the remote command fails, the triggering
read or write returns -1 with the stream unchanged and its flag still
unset, so the next read or write attempts to build and send the command
again: when gen_proto cannot build the command the operation fails without
touching the channel, and when the exec fails the operation fails with one
failed exec event; a later operation with a cooperating channel sends the
command and sets the flag; and over any operation sequence the command is
sent successfully at most once. -/
theorem claim_c10_failed_send_retried (s : SshStream) (env : OpEnv)
    (hsc : s.sent_command = false) :
    (gen_proto s.cmd s.url = none →
      ssh_stream_read s env = ⟨-1, 0, s, []⟩ ∧
      ssh_stream_write s env = ⟨-1, s, []⟩) ∧
    (∀ req, gen_proto s.cmd s.url = some req → env.exec_ok = false →
      ssh_stream_read s env = ⟨-1, 0, s, [SEv.exec req false]⟩ ∧
      ssh_stream_write s env = ⟨-1, s, [SEv.exec req false]⟩) ∧
    (∀ req env2, gen_proto s.cmd s.url = some req → env2.exec_ok = true →
      (ssh_stream_read s env2).s.sent_command = true ∧
      (ssh_stream_read s env2).ev.head? = some (SEv.exec req true) ∧
      (ssh_stream_write s env2).s.sent_command = true ∧
      (ssh_stream_write s env2).ev.head? = some (SEv.exec req true)) ∧
    (∀ ops, execOkCount (runOps s ops).ev ≤ 1) := by
  refine ⟨?_, ?_, ?_, ?_⟩
  · intro hgp
    constructor <;>
      simp [ssh_stream_read, ssh_stream_write, send_command, hsc, hgp]
  · intro req hgp hex
    constructor <;>
      simp [ssh_stream_read, ssh_stream_write, send_command, hsc, hgp, hex]
  · intro req env2 hgp hex2
    refine ⟨?_, ?_, ?_, ?_⟩ <;>
      simp only [ssh_stream_read, ssh_stream_write, send_command, hsc, hgp,
        hex2, if_true, lt_self_iff_false, if_false] <;>
      split <;> rfl
  · intro ops
    rcases runOps_spec ops s with ⟨-, -, -, hfalse⟩
    rcases hfalse hsc with ⟨hcount, -⟩
    rw [hcount]
    split <;> omega

/-- C10 witness: the build-failure half exercised on the stream a
successful setup installs for the path-less scheme URL, where gen_proto
finds no slash and fails, and the send-failure half on the fresh shorthand
upload-pack stream with a failing exec, followed by a cooperating
operation that sends the command; every hypothesis is evaluated. -/
theorem claim_c10_witness :
    (_git_ssh_setup_conn ⟨none, none⟩ urlSchemeNoPath cmd_uploadpack
      (goodEnv credG)).out = OutPtr.live streamNoPath ∧
    streamNoPath.sent_command = false ∧
    gen_proto streamNoPath.cmd streamNoPath.url = none ∧
    (ssh_stream_read streamNoPath ⟨true, 0⟩ = ⟨-1, 0, streamNoPath, []⟩ ∧
     ssh_stream_write streamNoPath ⟨true, 0⟩ = ⟨-1, streamNoPath, []⟩) ∧
    streamW.sent_command = false ∧
    gen_proto streamW.cmd streamW.url = some reqShorthandUp ∧
    (OpEnv.mk false 0).exec_ok = false ∧
    (ssh_stream_read streamW ⟨false, 0⟩ =
       ⟨-1, 0, streamW, [SEv.exec reqShorthandUp false]⟩ ∧
     ssh_stream_write streamW ⟨false, 0⟩ =
       ⟨-1, streamW, [SEv.exec reqShorthandUp false]⟩) ∧
    ((ssh_stream_read streamW ⟨true, 3⟩).s.sent_command = true ∧
     (ssh_stream_read streamW ⟨true, 3⟩).ev.head? =
       some (SEv.exec reqShorthandUp true) ∧
     (ssh_stream_write streamW ⟨true, 3⟩).s.sent_command = true ∧
     (ssh_stream_write streamW ⟨true, 3⟩).ev.head? =
       some (SEv.exec reqShorthandUp true)) ∧
    (∀ ops, execOkCount (runOps streamW ops).ev ≤ 1) :=
  ⟨by decide, by decide, by decide,
   (claim_c10_failed_send_retried streamNoPath ⟨true, 0⟩ (by decide)).1
     (by decide),
   by decide, by decide, rfl,
   (claim_c10_failed_send_retried streamW ⟨false, 0⟩ (by decide)).2.1
     reqShorthandUp (by decide) rfl,
   (claim_c10_failed_send_retried streamW ⟨false, 0⟩ (by decide)).2.2.1
     reqShorthandUp ⟨true, 3⟩ (by decide) rfl,
   (claim_c10_failed_send_retried streamW ⟨false, 0⟩ (by decide)).2.2.2⟩

end SshVerify
